import Mathlib

/-!
The initializers of picfit (`application/initializers.go`)

A shallow embedding of the start-up initializer pipeline of picfit and the
properties of its steps.

Conventions of the embedding

* A Go pointer or interface value is an `Option`: `none` is `nil`.
* A Go `(value, error)` pair is a Lean pair `Option value × Option GoError`
  (the fields `storage` and `err` of `StorageLookup` for
  `getStorageFromConfig`); the error component `none` is a `nil` error.
* A Go `map[string]string` is an association list read with `goIndex`, which
  gives the empty string for an absent key, as Go's map indexing does.
* A Go `int` is an `Int`. The code only compares such values with `0` and
  stores them, so no arithmetic can overflow.
* The configuration source (viper), the backend factories, the sentry client
  constructor and the package constants are declared outside
  `initializers.go`; they are parameters of the embedding (`Config`, `Env`).
* Every initializer returns a `StepResult`: the application after the step,
  the returned error, and the list of external constructors it invoked.
-/

namespace Picfit

/-- A Go `error` value, identified by its message. -/
structure GoError where
  msg : String
  deriving DecidableEq, Repr

/-- The Go call `fmt.Errorf(format, arg)` for a format string with a single
`%s` verb, given as the text before and after the verb. -/
def Errorf (before after arg : String) : GoError :=
  ⟨before ++ arg ++ after⟩

/-- A Go `map[string]string`. -/
abbrev StrMap := List (String × String)

/-- Go map indexing `m[k]`: the stored value, or the zero value `""`. -/
def goIndex (m : StrMap) (k : String) : String :=
  (m.lookup k).getD ""

/-- A configuration value before coercion to a string. -/
inductive Value where
  | str (s : String)
  | int (i : Int)
  | bool (b : Bool)
  deriving DecidableEq, Repr

/-- A Go `map[string]interface{}`. -/
abbrev RawMap := List (String × Value)

/-- The configuration source `app.Config`: typed getters addressed by a
dotted key. A missing key gives the zero value of the type. -/
structure Config where
  GetString : String → String
  GetInt : String → Int
  GetBool : String → Bool
  GetStringMapString : String → RawMap

/-- A key-value store backend instance. -/
structure KVStore where
  handle : Nat
  deriving DecidableEq, Repr

/-- A blob storage backend instance (`gostorages.Storage`). -/
structure Storage where
  handle : Nat
  deriving DecidableEq, Repr

/-- A sentry client (`raven.Client`). -/
structure Client where
  handle : Nat
  deriving DecidableEq, Repr

/-- The struct `engines.GoImageEngine`, with the fields the file sets. -/
@[ext]
structure GoImageEngine where
  DefaultFormat : String
  Format : String
  DefaultQuality : Int
  deriving DecidableEq, Repr

/-- The struct `Shard`. -/
@[ext]
structure Shard where
  Width : Int
  Depth : Int
  deriving DecidableEq, Repr

/-- Modelled from the spec: the declaration of the struct `Application` is
not in `initializers.go`. The fields are the ones the initializers read and
write (`Config`, `SecretKey`, `Engine`, `Shard`, `KVStore`, `Prefix`,
`SourceStorage`, `DestStorage`, `Raven`) and the two feature flags of the
data model (`EnableUpload`, `EnableDelete`). -/
structure Application where
  Config : Config
  SecretKey : String
  Engine : Option GoImageEngine
  Shard : Shard
  KVStore : Option KVStore
  Prefix : String
  SourceStorage : Option Storage
  DestStorage : Option Storage
  Raven : Option Client
  EnableUpload : Bool
  EnableDelete : Bool

/-- The factories registered in `KVStores`. -/
inductive KVStoreParameter where
  | RedisKVStoreParameter
  | CacheKVStoreParameter
  deriving DecidableEq, Repr

/-- The factories registered in `Storages`. -/
inductive StorageParameter where
  | HTTPS3StorageParameter
  | S3StorageParameter
  | HTTPFileSystemStorageParameter
  | FileSystemStorageParameter
  deriving DecidableEq, Repr

/-- One invocation of an external constructor, with its arguments. -/
inductive Call where
  | kvstore (p : KVStoreParameter) (params : StrMap)
  | storage (p : StorageParameter) (params : StrMap)
  | raven (dsn : String) (tags : StrMap)
  deriving DecidableEq, Repr

/-- What `initializers.go` uses and does not declare: the package constants,
the behaviour of the registered factories, `util.MapInterfaceToMapString`,
the method `app.GetStringMapString`, and `raven.NewClient` with its `dsn`. -/
structure Env where
  DefaultQuality : Int
  DefaultFormat : String
  DefaultShardWidth : Int
  DefaultShardDepth : Int
  dsn : String
  kvStoreParameter : KVStoreParameter → StrMap → Option KVStore × Option GoError
  storageParameter : StorageParameter → StrMap → Option Storage × Option GoError
  MapInterfaceToMapString : RawMap → StrMap
  GetStringMapString : Application → String → RawMap × Option GoError
  NewClient : String → StrMap → Option Client × Option GoError

/-- The outcome of one initializer: the application after it, the error it
returned, and the external constructors it invoked, in order. -/
structure StepResult where
  app : Application
  err : Option GoError
  calls : List Call

/-- The registry `KVStores`. -/
def KVStores : List (String × KVStoreParameter) :=
  [("redis", .RedisKVStoreParameter),
   ("cache", .CacheKVStoreParameter)]

/-- The registry `Storages`. -/
def Storages : List (String × StorageParameter) :=
  [("http+s3", .HTTPS3StorageParameter),
   ("s3", .S3StorageParameter),
   ("http+fs", .HTTPFileSystemStorageParameter),
   ("fs", .FileSystemStorageParameter)]

/-- The initializer `SentryInitializer`. -/
def SentryInitializer (env : Env) (app : Application) : StepResult :=
  let results := app.Config.GetStringMapString "sentry.tags"
  let tags := env.MapInterfaceToMapString results
  let call := Call.raven env.dsn tags
  match env.NewClient env.dsn tags with
  | (_, some err) => ⟨app, some err, [call]⟩
  | (client, none) => ⟨{ app with Raven := client }, none, [call]⟩

/-- The initializer `BasicInitializer`. The two flags are read into local
variables and not stored. -/
def BasicInitializer (env : Env) (app : Application) : StepResult :=
  let format := app.Config.GetString "options.format"
  let quality := app.Config.GetInt "options.quality"
  let quality := if quality = 0 then env.DefaultQuality else quality
  let app := { app with SecretKey := app.Config.GetString "secret_key" }
  let engine : GoImageEngine :=
    { DefaultFormat := env.DefaultFormat, Format := format, DefaultQuality := quality }
  let app := { app with Engine := some engine }
  let _enableUpload := app.Config.GetBool "options.enable_upload"
  let _enableDelete := app.Config.GetBool "options.enable_delete"
  ⟨app, none, []⟩

/-- The initializer `ShardInitializer`. -/
def ShardInitializer (env : Env) (app : Application) : StepResult :=
  let width := app.Config.GetInt "shard.width"
  let width := if width = 0 then env.DefaultShardWidth else width
  let depth := app.Config.GetInt "shard.depth"
  let depth := if depth = 0 then env.DefaultShardDepth else depth
  ⟨{ app with Shard := { Width := width, Depth := depth } }, none, []⟩

/-- The initializer `KVStoreInitializer`. -/
def KVStoreInitializer (env : Env) (app : Application) : StepResult :=
  let key := app.Config.GetString "kvstore.type"
  match KVStores.lookup key with
  | none => ⟨app, some (Errorf "KVStore " " does not exist" key), []⟩
  | some parameter =>
    let config := app.Config.GetStringMapString "kvstore"
    let params := env.MapInterfaceToMapString config
    match env.kvStoreParameter parameter params with
    | (_, some err) => ⟨app, some err, [Call.kvstore parameter params]⟩
    | (store, none) =>
      ⟨{ app with Prefix := goIndex params "prefix", KVStore := store }, none,
        [Call.kvstore parameter params]⟩

/-- The result of `getStorageFromConfig`: the Go pair and the constructors
invoked. -/
structure StorageLookup where
  storage : Option Storage
  err : Option GoError
  calls : List Call

/-- The function `getStorageFromConfig`. The message of the first error
interpolates `key`, the role, not `storageType`. -/
def getStorageFromConfig (env : Env) (key : String) (app : Application) : StorageLookup :=
  let storageType := app.Config.GetString ("storage." ++ key ++ ".type")
  match Storages.lookup storageType with
  | none => ⟨none, some (Errorf "Storage " " does not exist" key), []⟩
  | some parameter =>
    match env.GetStringMapString app ("storage." ++ key) with
    | (_, some err) => ⟨none, some err, []⟩
    | (config, none) =>
      let params := env.MapInterfaceToMapString config
      match env.storageParameter parameter params with
      | (_, some err) => ⟨none, some err, [Call.storage parameter params]⟩
      | (storage, none) => ⟨storage, none, [Call.storage parameter params]⟩

/-- The initializer `StorageInitializer`. The source binds the result of
`getStorageFromConfig("src", app)` to the single variable `sourceStorage`:
the storage is kept and the error of that call is not looked at. -/
def StorageInitializer (env : Env) (app : Application) : StepResult :=
  let src := getStorageFromConfig env "src" app
  let sourceStorage := src.storage
  let app := { app with SourceStorage := sourceStorage }
  let dst := getStorageFromConfig env "dst" app
  match dst.err with
  | some _ => ⟨{ app with DestStorage := sourceStorage }, none, src.calls ++ dst.calls⟩
  | none => ⟨{ app with DestStorage := dst.storage }, none, src.calls ++ dst.calls⟩

/-- The names of the initializers, the elements of `Initializers`. -/
inductive Initializer where
  | KVStoreInitializer
  | StorageInitializer
  | ShardInitializer
  | BasicInitializer
  | SentryInitializer
  deriving DecidableEq, Repr

/-- The function value an element of `Initializers` stands for. -/
def Initializer.run (env : Env) : Initializer → Application → StepResult
  | .KVStoreInitializer => Picfit.KVStoreInitializer env
  | .StorageInitializer => Picfit.StorageInitializer env
  | .ShardInitializer => Picfit.ShardInitializer env
  | .BasicInitializer => Picfit.BasicInitializer env
  | .SentryInitializer => Picfit.SentryInitializer env

/-- The ordered list `Initializers`. -/
def Initializers : List Initializer :=
  [.KVStoreInitializer,
   .StorageInitializer,
   .ShardInitializer,
   .BasicInitializer,
   .SentryInitializer]

/-- The outcome of a pipeline run: the final application, the error of the
step that failed, the constructors invoked, and the steps that were run,
in order. -/
structure PipelineResult where
  app : Application
  err : Option GoError
  calls : List Call
  executed : List Initializer

/-- Modelled from the spec: the loop that runs the initializers is not in
`initializers.go`. "The pipeline runs steps strictly in order and halts on
the first failure", and a failed step's error is returned verbatim with the
application as that step left it. -/
def runInitializers (env : Env) : List Initializer → Application → PipelineResult
  | [], app => ⟨app, none, [], []⟩
  | step :: rest, app =>
    let r := step.run env app
    match r.err with
    | some err => ⟨r.app, some err, r.calls, [step]⟩
    | none =>
      let p := runInitializers env rest r.app
      ⟨p.app, p.err, r.calls ++ p.calls, step :: p.executed⟩

/-! ## Sample configurations

A concrete configuration source and environment, used to evaluate the
definitions on explicit inputs. -/

/-- A configuration source given by tables of strings, integers, booleans
and maps; a key absent from a table reads as the zero value. -/
def tableConfig (strs : StrMap) (ints : List (String × Int))
    (bools : List (String × Bool)) (maps : List (String × RawMap)) : Config where
  GetString k := goIndex strs k
  GetInt k := (ints.lookup k).getD 0
  GetBool k := (bools.lookup k).getD false
  GetStringMapString k := (maps.lookup k).getD []

/-- An application in which nothing has been initialised yet. -/
def freshApp (c : Config) : Application where
  Config := c
  SecretKey := ""
  Engine := none
  Shard := { Width := 0, Depth := 0 }
  KVStore := none
  Prefix := ""
  SourceStorage := none
  DestStorage := none
  Raven := none
  EnableUpload := false
  EnableDelete := false

/-- A sample coercion of configuration values to strings. -/
def sampleCoerce : Value → String
  | .str s => s
  | .int i => if i = 0 then "0" else "n"
  | .bool b => if b then "true" else "false"

/-- A sample environment: the in-process cache and the two file-system
storages can be built, redis and the two S3 storages refuse the
connection. A file-system storage is identified by the length of its
`location`. -/
def sampleEnv : Env where
  DefaultQuality := 95
  DefaultFormat := "png"
  DefaultShardWidth := 2
  DefaultShardDepth := 3
  dsn := ""
  kvStoreParameter p _ :=
    match p with
    | .CacheKVStoreParameter => (some ⟨1⟩, none)
    | .RedisKVStoreParameter => (none, some ⟨"dial tcp: connection refused"⟩)
  storageParameter p params :=
    match p with
    | .FileSystemStorageParameter => (some ⟨(goIndex params "location").length⟩, none)
    | .HTTPFileSystemStorageParameter => (some ⟨(goIndex params "location").length⟩, none)
    | .S3StorageParameter => (none, some ⟨"s3: connection refused"⟩)
    | .HTTPS3StorageParameter => (none, some ⟨"s3: connection refused"⟩)
  MapInterfaceToMapString m := m.map fun kv => (kv.1, sampleCoerce kv.2)
  GetStringMapString app k := (app.Config.GetStringMapString k, none)
  NewClient _ _ := (some ⟨9⟩, none)

/-- Sample: `kvstore.type` is `"bogus"`. -/
def bogusKVConfig : Config :=
  tableConfig [("kvstore.type", "bogus")] [] [] []

/-- Sample: a cache store with a prefix, a file-system source storage and
no `storage.dst` section. -/
def singleStorageConfig : Config :=
  tableConfig
    [("kvstore.type", "cache"), ("storage.src.type", "fs"), ("secret_key", "s3cr3t"),
     ("options.format", "jpeg")]
    [("options.quality", 80), ("shard.width", 0), ("shard.depth", -4)]
    [("options.enable_upload", true)]
    [("kvstore", [("type", .str "cache"), ("prefix", .str "img:")]),
     ("storage.src", [("type", .str "fs"), ("location", .str "/tmp/a")])]

/-- Sample: file-system source and destination storages at different
locations. -/
def twoStorageConfig : Config :=
  tableConfig
    [("kvstore.type", "cache"), ("storage.src.type", "fs"), ("storage.dst.type", "http+fs")]
    [] []
    [("kvstore", [("type", .str "cache")]),
     ("storage.src", [("type", .str "fs"), ("location", .str "/tmp/a")]),
     ("storage.dst", [("type", .str "http+fs"), ("location", .str "/tmp/dest")])]

/-- Sample: a cache store and a source storage of the unregistered type
`"bogus"`. -/
def bogusSrcConfig : Config :=
  tableConfig [("kvstore.type", "cache"), ("storage.src.type", "bogus")] [] []
    [("kvstore", [("type", .str "cache")]),
     ("storage.src", [("type", .str "bogus")])]

/-- Sample: `singleStorageConfig` with the two feature flags changed:
`options.enable_upload` is off and `options.enable_delete` is on. -/
def flagsChangedConfig : Config :=
  tableConfig
    [("kvstore.type", "cache"), ("storage.src.type", "fs"), ("secret_key", "s3cr3t"),
     ("options.format", "jpeg")]
    [("options.quality", 80), ("shard.width", 0), ("shard.depth", -4)]
    [("options.enable_delete", true)]
    [("kvstore", [("type", .str "cache"), ("prefix", .str "img:")]),
     ("storage.src", [("type", .str "fs"), ("location", .str "/tmp/a")])]

/-- Sample: a redis store, whose construction fails in `sampleEnv`. -/
def redisConfig : Config :=
  tableConfig [("kvstore.type", "redis")] [] []
    [("kvstore", [("type", .str "redis"), ("prefix", .str "pf:")])]

/-! ## Lemmas on the registries and the pipeline -/

/-- A type identifier is absent from `KVStores` exactly when it is neither
`"redis"` nor `"cache"`. -/
theorem KVStores_lookup_eq_none_iff (t : String) :
    KVStores.lookup t = none ↔ t ≠ "redis" ∧ t ≠ "cache" := by
  by_cases h1 : t = "redis"
  · subst h1; simp [KVStores, List.lookup]
  · by_cases h2 : t = "cache"
    · subst h2; simp [KVStores, List.lookup]
    · have e1 : (t == "redis") = false := by simpa using h1
      have e2 : (t == "cache") = false := by simpa using h2
      simp [KVStores, List.lookup, h1, h2, e1, e2]

/-- A type identifier is absent from `Storages` exactly when it is none of
the four registered ones. -/
theorem Storages_lookup_eq_none_iff (t : String) :
    Storages.lookup t = none ↔
      t ≠ "http+s3" ∧ t ≠ "s3" ∧ t ≠ "http+fs" ∧ t ≠ "fs" := by
  by_cases h1 : t = "http+s3"
  · subst h1; simp [Storages, List.lookup]
  · by_cases h2 : t = "s3"
    · subst h2; simp [Storages, List.lookup]
    · by_cases h3 : t = "http+fs"
      · subst h3; simp [Storages, List.lookup]
      · by_cases h4 : t = "fs"
        · subst h4; simp [Storages, List.lookup]
        · have e1 : (t == "http+s3") = false := by simpa using h1
          have e2 : (t == "s3") = false := by simpa using h2
          have e3 : (t == "http+fs") = false := by simpa using h3
          have e4 : (t == "fs") = false := by simpa using h4
          simp [Storages, List.lookup, h1, h2, h3, h4, e1, e2, e3, e4]

/-- The configuration key read by `getStorageFromConfig "dst"`. -/
theorem dst_type_key : "storage." ++ "dst" ++ ".type" = "storage.dst.type" := by decide

/-- The namespace projected by `getStorageFromConfig "dst"`. -/
theorem dst_namespace : "storage." ++ "dst" = "storage.dst" := by decide

/-- The step `StorageInitializer` returns a `nil` error on every input. -/
theorem StorageInitializer_err (env : Env) (app : Application) :
    (StorageInitializer env app).err = none := by
  unfold StorageInitializer
  simp only []
  split <;> rfl

/-- The steps a pipeline run executes are an initial segment of the list it
was given. -/
theorem runInitializers_executed_initial (env : Env) (steps : List Initializer) :
    ∀ app, (runInitializers env steps app).executed <+: steps := by
  induction steps with
  | nil => intro app; simp [runInitializers]
  | cons step rest ih =>
    intro app
    unfold runInitializers
    simp only []
    split
    · exact ⟨rest, rfl⟩
    · exact (List.prefix_cons_inj step).mpr (ih _)

/-! ## The key-value store step -/

/-- C3: when the value `t` of `kvstore.type` is not a key of `KVStores`
(which is exactly when `t` is neither `"redis"` nor `"cache"`),
`KVStoreInitializer` returns the error `KVStore t does not exist`, invokes
no constructor and leaves the application, so also `KVStore` and `Prefix`,
as it was; when `t` is `"redis"` or `"cache"` the lookup gives the
registered factory and that factory is the single constructor invoked, on
the projected `kvstore` map. -/
theorem KVStoreInitializer_unregistered (env : Env) (app : Application) (t : String)
    (ht : app.Config.GetString "kvstore.type" = t) :
    (KVStores.lookup t = none ↔ t ≠ "redis" ∧ t ≠ "cache") ∧
    (KVStores.lookup t = none →
      (KVStoreInitializer env app).err = some ⟨"KVStore " ++ t ++ " does not exist"⟩ ∧
      (KVStoreInitializer env app).err ≠ none ∧
      (KVStoreInitializer env app).calls = [] ∧
      (KVStoreInitializer env app).app = app ∧
      (KVStoreInitializer env app).app.KVStore = app.KVStore ∧
      (KVStoreInitializer env app).app.Prefix = app.Prefix) ∧
    (t = "redis" →
      KVStores.lookup t = some .RedisKVStoreParameter ∧
      (KVStoreInitializer env app).calls =
        [Call.kvstore .RedisKVStoreParameter
          (env.MapInterfaceToMapString (app.Config.GetStringMapString "kvstore"))]) ∧
    (t = "cache" →
      KVStores.lookup t = some .CacheKVStoreParameter ∧
      (KVStoreInitializer env app).calls =
        [Call.kvstore .CacheKVStoreParameter
          (env.MapInterfaceToMapString (app.Config.GetStringMapString "kvstore"))]) := by
  refine ⟨KVStores_lookup_eq_none_iff t, ?_, ?_, ?_⟩
  · intro hnone
    have hr : KVStoreInitializer env app =
        ⟨app, some ⟨"KVStore " ++ t ++ " does not exist"⟩, []⟩ := by
      simp only [KVStoreInitializer, ht, hnone, Errorf]
    rw [hr]
    simp
  · intro h
    subst h
    have hl : KVStores.lookup "redis" = some .RedisKVStoreParameter := by decide
    refine ⟨hl, ?_⟩
    simp only [KVStoreInitializer, ht, hl]
    split <;> rfl
  · intro h
    subst h
    have hl : KVStores.lookup "cache" = some .CacheKVStoreParameter := by decide
    refine ⟨hl, ?_⟩
    simp only [KVStoreInitializer, ht, hl]
    split <;> rfl

/-- Witness for C3: the configurations with `kvstore.type` equal to
`"bogus"`, `"redis"` and `"cache"`. -/
theorem KVStoreInitializer_unregistered_witness :
    ((KVStoreInitializer sampleEnv (freshApp bogusKVConfig)).err =
        some ⟨"KVStore " ++ "bogus" ++ " does not exist"⟩ ∧
      (KVStoreInitializer sampleEnv (freshApp bogusKVConfig)).err ≠ none ∧
      (KVStoreInitializer sampleEnv (freshApp bogusKVConfig)).calls = [] ∧
      (KVStoreInitializer sampleEnv (freshApp bogusKVConfig)).app = freshApp bogusKVConfig ∧
      (KVStoreInitializer sampleEnv (freshApp bogusKVConfig)).app.KVStore = none ∧
      (KVStoreInitializer sampleEnv (freshApp bogusKVConfig)).app.Prefix = "") ∧
    (KVStores.lookup "redis" = some .RedisKVStoreParameter ∧
      (KVStoreInitializer sampleEnv (freshApp redisConfig)).calls =
        [Call.kvstore .RedisKVStoreParameter
          (sampleEnv.MapInterfaceToMapString (redisConfig.GetStringMapString "kvstore"))]) ∧
    (KVStores.lookup "cache" = some .CacheKVStoreParameter ∧
      (KVStoreInitializer sampleEnv (freshApp singleStorageConfig)).calls =
        [Call.kvstore .CacheKVStoreParameter
          (sampleEnv.MapInterfaceToMapString
            (singleStorageConfig.GetStringMapString "kvstore"))]) :=
  ⟨(KVStoreInitializer_unregistered sampleEnv (freshApp bogusKVConfig) "bogus"
      (by decide)).2.1 (by decide),
    (KVStoreInitializer_unregistered sampleEnv (freshApp redisConfig) "redis"
      (by decide)).2.2.1 rfl,
    (KVStoreInitializer_unregistered sampleEnv (freshApp singleStorageConfig) "cache"
      (by decide)).2.2.2 rfl⟩

/-- C8: when `kvstore.type` is registered and the factory returns the store
`s` with a `nil` error on the projected map `params`, `KVStoreInitializer`
returns a `nil` error, `KVStore` is `s`, and `Prefix` is the value of
`params["prefix"]` when that key is present and the empty string when it is
absent, whatever `Prefix` was before; nothing else changes. -/
theorem KVStoreInitializer_success (env : Env) (app : Application)
    (parameter : KVStoreParameter) (params : StrMap) (s : Option KVStore)
    (hparams : params = env.MapInterfaceToMapString (app.Config.GetStringMapString "kvstore"))
    (hreg : KVStores.lookup (app.Config.GetString "kvstore.type") = some parameter)
    (hfac : env.kvStoreParameter parameter params = (s, none)) :
    (KVStoreInitializer env app).err = none ∧
    (KVStoreInitializer env app).app.KVStore = s ∧
    (∀ v, params.lookup "prefix" = some v → (KVStoreInitializer env app).app.Prefix = v) ∧
    (params.lookup "prefix" = none → (KVStoreInitializer env app).app.Prefix = "") ∧
    (KVStoreInitializer env app).app =
      { app with Prefix := (KVStoreInitializer env app).app.Prefix, KVStore := s } ∧
    (KVStoreInitializer env app).calls = [Call.kvstore parameter params] := by
  subst hparams
  have hr : KVStoreInitializer env app =
      ⟨{ app with
          Prefix := goIndex (env.MapInterfaceToMapString
            (app.Config.GetStringMapString "kvstore")) "prefix",
          KVStore := s }, none,
        [Call.kvstore parameter
          (env.MapInterfaceToMapString (app.Config.GetStringMapString "kvstore"))]⟩ := by
    simp only [KVStoreInitializer, hreg, hfac]
  rw [hr]
  refine ⟨rfl, rfl, ?_, ?_, rfl, rfl⟩
  · intro v hv
    simp [goIndex, hv]
  · intro hv
    simp [goIndex, hv]

/-- Witness for C8: the cache store with the prefix `"img:"`. -/
theorem KVStoreInitializer_success_witness :
    (KVStoreInitializer sampleEnv (freshApp singleStorageConfig)).err = none ∧
    (KVStoreInitializer sampleEnv (freshApp singleStorageConfig)).app.KVStore = some ⟨1⟩ ∧
    (KVStoreInitializer sampleEnv (freshApp singleStorageConfig)).app.Prefix = "img:" :=
  have h := KVStoreInitializer_success sampleEnv (freshApp singleStorageConfig)
    .CacheKVStoreParameter [("type", "cache"), ("prefix", "img:")] (some ⟨1⟩)
    (by decide) (by decide) (by decide)
  ⟨h.1, h.2.1, h.2.2.1 "img:" (by decide)⟩

/-- C9: when `kvstore.type` is registered and the factory returns the error
`e`, `KVStoreInitializer` returns `e` itself and the application is as it
was before the step, so `KVStore` and `Prefix` keep their values. -/
theorem KVStoreInitializer_factory_error (env : Env) (app : Application)
    (parameter : KVStoreParameter) (s : Option KVStore) (e : GoError)
    (hreg : KVStores.lookup (app.Config.GetString "kvstore.type") = some parameter)
    (hfac : env.kvStoreParameter parameter
      (env.MapInterfaceToMapString (app.Config.GetStringMapString "kvstore")) = (s, some e)) :
    (KVStoreInitializer env app).err = some e ∧
    (KVStoreInitializer env app).app = app ∧
    (KVStoreInitializer env app).app.KVStore = app.KVStore ∧
    (KVStoreInitializer env app).app.Prefix = app.Prefix := by
  have hr : KVStoreInitializer env app =
      ⟨app, some e,
        [Call.kvstore parameter
          (env.MapInterfaceToMapString (app.Config.GetStringMapString "kvstore"))]⟩ := by
    simp only [KVStoreInitializer, hreg, hfac]
  rw [hr]
  exact ⟨rfl, rfl, rfl, rfl⟩

/-- Witness for C9: the redis store, which refuses the connection. -/
theorem KVStoreInitializer_factory_error_witness :
    (KVStoreInitializer sampleEnv (freshApp redisConfig)).err =
      some ⟨"dial tcp: connection refused"⟩ ∧
    (KVStoreInitializer sampleEnv (freshApp redisConfig)).app = freshApp redisConfig ∧
    (KVStoreInitializer sampleEnv (freshApp redisConfig)).app.KVStore = none ∧
    (KVStoreInitializer sampleEnv (freshApp redisConfig)).app.Prefix = "" :=
  KVStoreInitializer_factory_error sampleEnv (freshApp redisConfig)
    .RedisKVStoreParameter none ⟨"dial tcp: connection refused"⟩ (by decide) (by decide)

/-! ## The storage step -/

/-- C1, evaluated on the code: with `storage.src.type` set to the
unregistered `"bogus"`, resolving `"src"` fails, and yet
`StorageInitializer` returns a `nil` error, leaves `SourceStorage` and
`DestStorage` `nil`, and the pipeline goes on to run the shard, basic and
sentry steps. -/
theorem StorageInitializer_src_failure_swallowed :
    Storages.lookup ((freshApp bogusSrcConfig).Config.GetString "storage.src.type") = none ∧
    (getStorageFromConfig sampleEnv "src" (freshApp bogusSrcConfig)).err ≠ none ∧
    (StorageInitializer sampleEnv (freshApp bogusSrcConfig)).err = none ∧
    (StorageInitializer sampleEnv (freshApp bogusSrcConfig)).app.SourceStorage = none ∧
    (StorageInitializer sampleEnv (freshApp bogusSrcConfig)).app.DestStorage = none ∧
    (runInitializers sampleEnv Initializers (freshApp bogusSrcConfig)).err = none ∧
    (runInitializers sampleEnv Initializers (freshApp bogusSrcConfig)).executed =
      [.KVStoreInitializer, .StorageInitializer, .ShardInitializer, .BasicInitializer,
        .SentryInitializer] := by
  decide

/-- C2: when resolving `"src"` gives the storage `s` with a `nil` error,
`StorageInitializer` returns a `nil` error and `SourceStorage` is `s`; if
resolving `"dst"` (on the application that already holds `s`) returns an
error, `DestStorage` is `SourceStorage`, that is `s`; if it returns `d`
with a `nil` error, `DestStorage` is `d`, and `d` is what the factory
registered under `storage.dst.type` returned on the projected
`storage.dst` map. -/
theorem StorageInitializer_dest_fallback (env : Env) (app : Application)
    (s : Option Storage)
    (hsrc : (getStorageFromConfig env "src" app).storage = s)
    (_hok : (getStorageFromConfig env "src" app).err = none) :
    (StorageInitializer env app).err = none ∧
    (StorageInitializer env app).app.SourceStorage = s ∧
    ((getStorageFromConfig env "dst" { app with SourceStorage := s }).err ≠ none →
      (StorageInitializer env app).app.DestStorage =
        (StorageInitializer env app).app.SourceStorage ∧
      (StorageInitializer env app).app.DestStorage = s) ∧
    (∀ d, (getStorageFromConfig env "dst" { app with SourceStorage := s }).storage = d →
      (getStorageFromConfig env "dst" { app with SourceStorage := s }).err = none →
      (StorageInitializer env app).app.DestStorage = d ∧
      ∃ parameter config,
        Storages.lookup (app.Config.GetString "storage.dst.type") = some parameter ∧
        env.GetStringMapString { app with SourceStorage := s } "storage.dst"
          = (config, none) ∧
        env.storageParameter parameter (env.MapInterfaceToMapString config) = (d, none)) := by
  refine ⟨StorageInitializer_err env app, ?_, ?_, ?_⟩
  · unfold StorageInitializer
    simp only [hsrc]
    split <;> rfl
  · intro hdst
    unfold StorageInitializer
    simp only [hsrc]
    split
    · exact ⟨rfl, rfl⟩
    · next h => exact absurd h hdst
  · intro d hd hnone
    constructor
    · unfold StorageInitializer
      simp only [hsrc]
      split
      · next e h => rw [hnone] at h; cases h
      · exact hd
    · revert hd hnone
      unfold getStorageFromConfig
      simp only [dst_type_key, dst_namespace]
      split
      · intro _ h; cases h
      · next parameter hl =>
        split
        · intro _ h; cases h
        · next config hc =>
          split
          · intro _ h; cases h
          · next st hf =>
            intro hd _
            exact ⟨parameter, config, hl, hc, by rw [hf]; simp at hd; rw [hd]⟩

/-- Witness for C2: a configuration without a `storage.dst` section, where
the destination falls back to the source storage, and one with both
sections, where the destination is the storage built from `storage.dst`. -/
theorem StorageInitializer_dest_fallback_witness :
    ((StorageInitializer sampleEnv (freshApp singleStorageConfig)).err = none ∧
      (StorageInitializer sampleEnv (freshApp singleStorageConfig)).app.SourceStorage
        = some ⟨6⟩ ∧
      (StorageInitializer sampleEnv (freshApp singleStorageConfig)).app.DestStorage
        = (StorageInitializer sampleEnv (freshApp singleStorageConfig)).app.SourceStorage ∧
      (StorageInitializer sampleEnv (freshApp singleStorageConfig)).app.DestStorage
        = some ⟨6⟩) ∧
    ((StorageInitializer sampleEnv (freshApp twoStorageConfig)).app.SourceStorage
        = some ⟨6⟩ ∧
      (StorageInitializer sampleEnv (freshApp twoStorageConfig)).app.DestStorage
        = some ⟨9⟩) :=
  have h1 := StorageInitializer_dest_fallback sampleEnv (freshApp singleStorageConfig)
    (some ⟨6⟩) (by decide) (by decide)
  have h2 := StorageInitializer_dest_fallback sampleEnv (freshApp twoStorageConfig)
    (some ⟨6⟩) (by decide) (by decide)
  ⟨⟨h1.1, h1.2.1, (h1.2.2.1 (by decide)).1, (h1.2.2.1 (by decide)).2⟩,
    h2.2.1, (h2.2.2.2 (some ⟨9⟩) (by decide) (by decide)).1⟩

/-- C4, evaluated on the code: with `storage.src.type` set to the
unregistered `"bogus"`, `getStorageFromConfig "src"` fails with the message
`Storage src does not exist`, which holds the role key `src` and does not
contain the requested type identifier `bogus`; for the role `"dst"` and the
same unregistered type the message is `Storage dst does not exist`. -/
theorem getStorageFromConfig_message_names_role :
    (freshApp bogusSrcConfig).Config.GetString "storage.src.type" = "bogus" ∧
    Storages.lookup "bogus" = none ∧
    (getStorageFromConfig sampleEnv "src" (freshApp bogusSrcConfig)).err =
      some ⟨"Storage src does not exist"⟩ ∧
    ¬ ("bogus".data <:+: "Storage src does not exist".data) ∧
    (getStorageFromConfig sampleEnv "dst"
        (freshApp (tableConfig [("storage.dst.type", "bogus")] [] [] []))).err =
      some ⟨"Storage dst does not exist"⟩ := by
  decide

/-! ## The shard and basic steps -/

/-- C5: `ShardInitializer` returns a `nil` error on every input, and sets
`Shard.Width` to `DefaultShardWidth` when the integer read from
`shard.width` is `0` and to that integer otherwise, and, independently,
`Shard.Depth` to `DefaultShardDepth` when the integer read from
`shard.depth` is `0` and to that integer otherwise; a negative integer is
stored as it is. -/
theorem ShardInitializer_defaults (env : Env) (app : Application) :
    (ShardInitializer env app).err = none ∧
    (app.Config.GetInt "shard.width" = 0 →
      (ShardInitializer env app).app.Shard.Width = env.DefaultShardWidth) ∧
    (app.Config.GetInt "shard.width" ≠ 0 →
      (ShardInitializer env app).app.Shard.Width = app.Config.GetInt "shard.width") ∧
    (app.Config.GetInt "shard.depth" = 0 →
      (ShardInitializer env app).app.Shard.Depth = env.DefaultShardDepth) ∧
    (app.Config.GetInt "shard.depth" ≠ 0 →
      (ShardInitializer env app).app.Shard.Depth = app.Config.GetInt "shard.depth") ∧
    (app.Config.GetInt "shard.width" < 0 →
      (ShardInitializer env app).app.Shard.Width = app.Config.GetInt "shard.width") ∧
    (app.Config.GetInt "shard.depth" < 0 →
      (ShardInitializer env app).app.Shard.Depth = app.Config.GetInt "shard.depth") := by
  refine ⟨rfl, ?_, ?_, ?_, ?_, ?_, ?_⟩
  · intro h; simp [ShardInitializer, h]
  · intro h; simp [ShardInitializer, h]
  · intro h; simp [ShardInitializer, h]
  · intro h; simp [ShardInitializer, h]
  · intro h; simp [ShardInitializer, Int.ne_of_lt h]
  · intro h; simp [ShardInitializer, Int.ne_of_lt h]

/-- Witness for C5: `shard.width = 0` and `shard.depth = 0` give the two
defaults; `shard.width = 0` and `shard.depth = -4` give the default width
and the depth `-4`; `shard.width = 7` gives the width `7`. -/
theorem ShardInitializer_defaults_witness :
    ((ShardInitializer sampleEnv
        (freshApp (tableConfig [] [("shard.width", 0), ("shard.depth", 0)] [] []))).app.Shard =
      { Width := sampleEnv.DefaultShardWidth, Depth := sampleEnv.DefaultShardDepth }) ∧
    ((ShardInitializer sampleEnv (freshApp singleStorageConfig)).app.Shard.Width =
        sampleEnv.DefaultShardWidth ∧
      (ShardInitializer sampleEnv (freshApp singleStorageConfig)).app.Shard.Depth = -4) ∧
    (ShardInitializer sampleEnv
      (freshApp (tableConfig [] [("shard.width", 7)] [] []))).app.Shard.Width = 7 :=
  have h0 := ShardInitializer_defaults sampleEnv
    (freshApp (tableConfig [] [("shard.width", 0), ("shard.depth", 0)] [] []))
  have h1 := ShardInitializer_defaults sampleEnv (freshApp singleStorageConfig)
  have h2 := ShardInitializer_defaults sampleEnv
    (freshApp (tableConfig [] [("shard.width", 7)] [] []))
  ⟨Shard.ext (h0.2.1 (by decide)) (h0.2.2.2.1 (by decide)),
    ⟨h1.2.1 (by decide), h1.2.2.2.2.2.2 (by decide)⟩,
    h2.2.2.1 (by decide)⟩

/-- C6: `BasicInitializer` returns a `nil` error on every input; the engine
it stores has `DefaultQuality` equal to the constant `DefaultQuality` when
the integer read from `options.quality` is `0` and equal to that integer
otherwise, `Format` equal to `options.format` and `DefaultFormat` equal to
the constant `DefaultFormat`; `SecretKey` is `secret_key`; and a second run
of the step, or a run from any application with the same configuration,
stores the same engine. -/
theorem BasicInitializer_engine (env : Env) (app : Application) :
    (BasicInitializer env app).err = none ∧
    (∃ engine, (BasicInitializer env app).app.Engine = some engine ∧
      (app.Config.GetInt "options.quality" = 0 →
        engine.DefaultQuality = env.DefaultQuality) ∧
      (app.Config.GetInt "options.quality" ≠ 0 →
        engine.DefaultQuality = app.Config.GetInt "options.quality") ∧
      engine.Format = app.Config.GetString "options.format" ∧
      engine.DefaultFormat = env.DefaultFormat) ∧
    (BasicInitializer env app).app.SecretKey = app.Config.GetString "secret_key" ∧
    (BasicInitializer env (BasicInitializer env app).app).app.Engine =
      (BasicInitializer env app).app.Engine ∧
    (∀ other : Application, other.Config = app.Config →
      (BasicInitializer env other).app.Engine = (BasicInitializer env app).app.Engine) := by
  refine ⟨rfl, ⟨_, rfl, ?_, ?_, rfl, rfl⟩, rfl, rfl, ?_⟩
  · intro h; simp [h]
  · intro h; simp [h]
  · intro other h; simp [BasicInitializer, h]

/-- Witness for C6: `options.quality` absent gives the default quality,
`options.quality = 80` gives `80`. -/
theorem BasicInitializer_engine_witness :
    (BasicInitializer sampleEnv (freshApp bogusKVConfig)).app.Engine =
      some { DefaultFormat := "png", Format := "", DefaultQuality := 95 } ∧
    (BasicInitializer sampleEnv (freshApp singleStorageConfig)).app.Engine =
      some { DefaultFormat := "png", Format := "jpeg", DefaultQuality := 80 } ∧
    (BasicInitializer sampleEnv (freshApp singleStorageConfig)).app.SecretKey = "s3cr3t" := by
  obtain ⟨_, ⟨e0, he0, hq0, _, hf0, hd0⟩, _, _, _⟩ :=
    BasicInitializer_engine sampleEnv (freshApp bogusKVConfig)
  obtain ⟨_, ⟨e1, he1, _, hq1, hf1, hd1⟩, hk, _, _⟩ :=
    BasicInitializer_engine sampleEnv (freshApp singleStorageConfig)
  refine ⟨?_, ?_, hk⟩
  · rw [he0]
    exact congrArg some (GoImageEngine.ext hd0 hf0 (hq0 (by decide)))
  · rw [he1]
    exact congrArg some (GoImageEngine.ext hd1 hf1 (hq1 (by decide)))

/-- C10: `BasicInitializer` changes only `SecretKey` and `Engine`: the
configuration, `KVStore`, `Prefix`, `SourceStorage`, `DestStorage`, `Shard`,
`Raven` and the two feature flags are as before, and no constructor is
invoked; and for a second configuration that agrees with the first at every
key other than `options.enable_upload` and `options.enable_delete`, the
step run from the same application gives the same result, the
configuration itself set aside. -/
theorem BasicInitializer_frame (env : Env) (app : Application) :
    (BasicInitializer env app).app =
      { app with SecretKey := (BasicInitializer env app).app.SecretKey,
                 Engine := (BasicInitializer env app).app.Engine } ∧
    ((BasicInitializer env app).app.Config = app.Config ∧
      (BasicInitializer env app).app.KVStore = app.KVStore ∧
      (BasicInitializer env app).app.Prefix = app.Prefix ∧
      (BasicInitializer env app).app.SourceStorage = app.SourceStorage ∧
      (BasicInitializer env app).app.DestStorage = app.DestStorage ∧
      (BasicInitializer env app).app.Shard = app.Shard ∧
      (BasicInitializer env app).app.Raven = app.Raven ∧
      (BasicInitializer env app).app.EnableUpload = app.EnableUpload ∧
      (BasicInitializer env app).app.EnableDelete = app.EnableDelete) ∧
    (BasicInitializer env app).calls = [] ∧
    (∀ c : Config,
      (∀ k, k ≠ "options.enable_upload" → k ≠ "options.enable_delete" →
        c.GetString k = app.Config.GetString k ∧ c.GetInt k = app.Config.GetInt k ∧
        c.GetBool k = app.Config.GetBool k ∧
        c.GetStringMapString k = app.Config.GetStringMapString k) →
      { (BasicInitializer env { app with Config := c }).app with Config := app.Config } =
        (BasicInitializer env app).app ∧
      (BasicInitializer env { app with Config := c }).err = (BasicInitializer env app).err) := by
  refine ⟨rfl, ⟨rfl, rfl, rfl, rfl, rfl, rfl, rfl, rfl, rfl⟩, rfl, ?_⟩
  intro c h
  have hf := (h "options.format" (by decide) (by decide)).1
  have hq := (h "options.quality" (by decide) (by decide)).2.1
  have hs := (h "secret_key" (by decide) (by decide)).1
  refine ⟨?_, rfl⟩
  simp only [BasicInitializer, hf, hq, hs]

/-- Witness for C10: `singleStorageConfig` and `flagsChangedConfig` read
different values for both flags and give the same application. -/
theorem BasicInitializer_frame_witness :
    flagsChangedConfig.GetBool "options.enable_upload" ≠
      singleStorageConfig.GetBool "options.enable_upload" ∧
    flagsChangedConfig.GetBool "options.enable_delete" ≠
      singleStorageConfig.GetBool "options.enable_delete" ∧
    { (BasicInitializer sampleEnv (freshApp flagsChangedConfig)).app with
        Config := singleStorageConfig } =
      (BasicInitializer sampleEnv (freshApp singleStorageConfig)).app := by
  refine ⟨by decide, by decide, ?_⟩
  refine ((BasicInitializer_frame sampleEnv (freshApp singleStorageConfig)).2.2.2
    flagsChangedConfig ?_).1
  intro k h1 h2
  have e1 : (k == "options.enable_upload") = false := by simpa using h1
  have e2 : (k == "options.enable_delete") = false := by simpa using h2
  refine ⟨rfl, rfl, ?_, rfl⟩
  simp [flagsChangedConfig, singleStorageConfig, freshApp, tableConfig, List.lookup, e1, e2]

/-! ## The order of the steps -/

/-- C7, as stated, fails: in `Initializers` the position of
`BasicInitializer` is `3` and that of `ShardInitializer` is `2`, so the
basic step does not come before the shard step; in a run that reaches both,
the shard step is executed first and the application handed to the shard
step has no engine and no secret key yet. -/
theorem Initializers_basic_not_before_shard :
    Initializers.indexOf .BasicInitializer = 3 ∧
    Initializers.indexOf .ShardInitializer = 2 ∧
    ¬ (Initializers.indexOf .BasicInitializer < Initializers.indexOf .ShardInitializer) ∧
    (runInitializers sampleEnv Initializers (freshApp singleStorageConfig)).executed =
      [.KVStoreInitializer, .StorageInitializer, .ShardInitializer, .BasicInitializer,
        .SentryInitializer] ∧
    (runInitializers sampleEnv [.KVStoreInitializer, .StorageInitializer, .ShardInitializer]
      (freshApp singleStorageConfig)).app.Engine = none ∧
    (runInitializers sampleEnv [.KVStoreInitializer, .StorageInitializer, .ShardInitializer]
      (freshApp singleStorageConfig)).app.SecretKey = "" ∧
    (runInitializers sampleEnv [.KVStoreInitializer, .StorageInitializer, .ShardInitializer]
      (freshApp singleStorageConfig)).app.Shard = { Width := 2, Depth := -4 } := by
  decide

/-- C7, amended: in `Initializers` the shard step `ShardInitializer` comes
before the basic step `BasicInitializer`, directly before it, and in every
pipeline run over `Initializers` in which the basic step is executed the
shard step was executed before it. -/
theorem Initializers_shard_before_basic (env : Env) (app : Application) :
    Initializers.indexOf .ShardInitializer < Initializers.indexOf .BasicInitializer ∧
    Initializers.indexOf .ShardInitializer + 1 = Initializers.indexOf .BasicInitializer ∧
    (Initializer.BasicInitializer ∈ (runInitializers env Initializers app).executed →
      Initializer.ShardInitializer ∈ (runInitializers env Initializers app).executed ∧
      (runInitializers env Initializers app).executed.indexOf .ShardInitializer <
        (runInitializers env Initializers app).executed.indexOf .BasicInitializer) := by
  refine ⟨by decide, by decide, ?_⟩
  have hp := runInitializers_executed_initial env Initializers app
  generalize (runInitializers env Initializers app).executed = tr at hp
  have hlen : tr.length ≤ 5 := hp.length_le
  rw [List.prefix_iff_eq_take] at hp
  generalize hn : tr.length = n at hp hlen
  subst hp
  interval_cases n <;> decide

/-- Witness for C7, amended: a run that executes all five steps. -/
theorem Initializers_shard_before_basic_witness :
    Initializer.ShardInitializer ∈
      (runInitializers sampleEnv Initializers (freshApp singleStorageConfig)).executed ∧
    (runInitializers sampleEnv Initializers
        (freshApp singleStorageConfig)).executed.indexOf .ShardInitializer <
      (runInitializers sampleEnv Initializers
        (freshApp singleStorageConfig)).executed.indexOf .BasicInitializer :=
  (Initializers_shard_before_basic sampleEnv (freshApp singleStorageConfig)).2.2 (by decide)

end Picfit
